import Mathlib

/-!
Shallow embedding of the music-conversion utility (src/convert.py) and
verification of its specification claims.

Paths and command-line tokens are modelled as Lean `String`s.  The
filesystem and the subprocess layer are modelled by an explicit
environment (`Env`) of oracles: `isFile`/`isDir`/`listdir` describe the
filesystem, and `run` describes one external-process invocation, where
`none` models a raised exception (e.g. the executable being absent) and
`some r` a completed process with exit code and captured stderr.
`ProcResult.stderrLines` models the captured standard-error stream as its
list of lines (the result of Python's `str.splitlines`).
Python's `str.lower` is modelled on the ASCII range, which covers every
string the program compares.
-/

/-- ASCII lowering of one character, modelling Python `str.lower` on the
ASCII range (uppercase A-Z map to a-z, everything else is unchanged). -/
def charLower (c : Char) : Char :=
  if 65 ≤ c.toNat ∧ c.toNat ≤ 90 then Char.ofNat (c.toNat + 32) else c

/-- `s.lower()` for a whole string. -/
def lowerStr (s : String) : String :=
  String.mk (s.data.map charLower)

/-- Python `s.endswith(suffix)`. -/
def endswith (s suffix2 : String) : Bool :=
  List.isSuffixOf suffix2.data s.data

/-- Helper for `rfind`: scan the list left to right, remembering the index
of the last occurrence seen so far (`-1` when none, as in Python). -/
def rfindGo (c : Char) : List Char → Int → Int → Int
  | [], _, best => best
  | x :: xs, i, best => rfindGo c xs (i + 1) (if x = c then i else best)

/-- Python `p.rfind(c)`: index of the last occurrence of `c`, `-1` if absent. -/
def rfind (c : Char) (p : List Char) : Int :=
  rfindGo c p 0 (-1)

/-- `os.path.splitext` (POSIX flavour, as `posixpath.splitext`): split off
the extension starting at the last dot, provided that dot lies after the
last path separator and that some character strictly between the start of
the basename and that dot is not itself a dot (so `.bashrc` has no
extension). -/
def splitextL (p : List Char) : List Char × List Char :=
  let sepIndex := rfind '/' p
  let dotIndex := rfind '.' p
  if dotIndex > sepIndex then
    let seg := (p.take dotIndex.toNat).drop (sepIndex + 1).toNat
    if seg.any (fun ch => ch ≠ '.') then
      (p.take dotIndex.toNat, p.drop dotIndex.toNat)
    else (p, [])
  else (p, [])

/-- `os.path.splitext` on `String`s. -/
def splitextStr (p : String) : String × String :=
  let r := splitextL p.data
  (String.mk r.1, String.mk r.2)

/-- `os.path.join` for two components (POSIX flavour). -/
def joinPath (a b : String) : String :=
  if b.data.head? = some '/' then b
  else if a = "" ∨ a.data.getLast? = some '/' then a ++ b
  else a ++ "/" ++ b

/-- The `COMMON_AUDIO_FORMATS` allow-list from src/convert.py. -/
def COMMON_AUDIO_FORMATS : List String :=
  [".mp3", ".aac", ".ogg", ".opus", ".m4a", ".wma", ".vorbis",
   ".flac", ".wav", ".aiff", ".alac", ".ape", ".wv",
   ".ac3", ".amr", ".au", ".mid", ".mka", ".ra", ".shn"]

/-- The inline deny-list of obviously-non-audio extensions used in
`convert_folder`. -/
def NON_AUDIO_EXTS : List String :=
  [".txt", ".jpg", ".png", ".pdf", ".doc", ".docx", ".exe", ".zip"]

/-- The `format_codec_map` dictionary from `get_output_codec`, as an
association list in source order. -/
def format_codec_map : List (String × List String) :=
  [(".mp3", ["-c:a", "libmp3lame", "-q:a", "4"]),
   (".ogg", ["-c:a", "libvorbis", "-q:a", "5"]),
   (".opus", ["-c:a", "libopus", "-b:a", "128k"]),
   (".m4a", ["-c:a", "aac", "-b:a", "192k"]),
   (".flac", ["-c:a", "flac"]),
   (".wav", ["-c:a", "pcm_s16le"]),
   (".aac", ["-c:a", "aac", "-b:a", "192k"]),
   (".wma", ["-c:a", "wmav2", "-b:a", "192k"]),
   (".alac", ["-c:a", "alac"])]

/-- Python `dict.get(k, d)` over an association list. -/
def dict_get (m : List (String × List String)) (k : String) (d : List String) : List String :=
  match m with
  | [] => d
  | (k2, v) :: rest => if k = k2 then v else dict_get rest k d

/-- `get_output_codec` from src/convert.py: look the lowercased format up
in `format_codec_map`, falling back to the stream-copy default. -/
def get_output_codec (output_format : String) : List String :=
  dict_get format_codec_map (lowerStr output_format) ["-c:a", "copy"]

/-- Result of one completed external-process invocation: exit code and
the captured standard-error stream, given as its list of lines. -/
structure ProcResult where
  returncode : Int
  stderrLines : List String
deriving DecidableEq

/-- Environment oracles: the filesystem and the subprocess layer.  In
`run`, `none` models a raised exception while spawning (such as the
executable not being found), `some r` a completed process. -/
structure Env where
  isFile : String → Bool
  isDir : String → Bool
  listdir : String → List String
  run : List String → Option ProcResult

/-- Classified failure cause of one `convert_file` call. -/
inductive FileErr where
  | notFound
  | noOutputFormat
  | toolFailed (shownLines : List String)
  | exceptionRaised
deriving DecidableEq

/-- Observable outcome of one `convert_file` call: the returned boolean,
the failure classification (if any), the list of external commands that
were spawned, the assembled ffmpeg command (if the call got that far) and
the resolved output path. -/
structure FileOutcome where
  ok : Bool
  err : Option FileErr
  spawned : List (List String)
  cmd : Option (List String)
  outputPath : Option String
deriving DecidableEq

/-- Python truthiness of an optional string: `None` and the empty string
are falsy, every other string is truthy. -/
def pyTruthy : Option String → Bool
  | none => false
  | some s => s != ""

/-- The output-format resolution of `convert_file` (lines 85-94),
with Python's truthiness tests (`if format:` / `elif output_file:`,
false for `None` and for `""`): a truthy format override first, else the
lowercased extension of a truthy output path (`none`, a validation
failure, when that extension is empty), else the fixed default `.ogg`.
The `getD ""` accesses are exact: each guarded branch is entered only
when the respective option holds a (non-empty) string. -/
def resolve_output_format (output_file : Option String) (format2 : Option String) :
    Option String :=
  if pyTruthy format2 then some ("." ++ lowerStr (format2.getD ""))
  else if pyTruthy output_file then
    let ext := lowerStr (splitextStr (output_file.getD "")).2
    if ext = "" then none else some ext
  else some ".ogg"

/-- The quality-substitution step of `convert_file` (lines 106-109): when
the codec settings contain "-q:a" and a quality was given, overwrite the
element after the flag with the decimal rendering of the quality. -/
def substQuality (cs : List String) (quality : Option Nat) : List String :=
  match quality with
  | none => cs
  | some q =>
    if "-q:a" ∈ cs then
      let q_index := cs.indexOf "-q:a"
      if q_index + 1 < cs.length then cs.set (q_index + 1) (toString q) else cs
    else cs

/-- Python `xs[-n:]`: the last `min n (length xs)` elements. -/
def lastN (n : Nat) (xs : List String) : List String :=
  xs.drop (xs.length - n)

/-- `convert_file` from src/convert.py (lines 78-142). -/
def convert_file (env : Env) (input_file : String) (output_file : Option String)
    (quality : Option Nat) (format2 : Option String) : FileOutcome :=
  if env.isFile input_file = false then
    { ok := false, err := some .notFound, spawned := [], cmd := none, outputPath := none }
  else
    match resolve_output_format output_file format2 with
    | none =>
      { ok := false, err := some .noOutputFormat, spawned := [], cmd := none,
        outputPath := none }
    | some output_format =>
      let out := output_file.getD ((splitextStr input_file).1 ++ output_format)
      let codec_settings := substQuality (get_output_codec output_format) quality
      let ffmpeg_cmd := ["ffmpeg", "-i", input_file] ++ codec_settings ++ [out]
      match env.run ffmpeg_cmd with
      | none =>
        { ok := false, err := some .exceptionRaised, spawned := [ffmpeg_cmd],
          cmd := some ffmpeg_cmd, outputPath := some out }
      | some result =>
        if result.returncode ≠ 0 then
          { ok := false, err := some (.toolFailed (lastN 5 result.stderrLines)),
            spawned := [ffmpeg_cmd], cmd := some ffmpeg_cmd, outputPath := some out }
        else
          { ok := true, err := none, spawned := [ffmpeg_cmd],
            cmd := some ffmpeg_cmd, outputPath := some out }

/-- The summary counters printed after a batch run, with the derived
success rate.  The Python source computes the rate with float division
and truncation via `int`; it is modelled here with natural division. -/
structure BatchSummary where
  total : Nat
  converted : Nat
  skipped : Nat
  failed : Nat
  rate : Nat
deriving DecidableEq

/-- Result of `convert_folder`: missing directory, empty candidate set,
or a completed pass with its summary and returned boolean. -/
inductive FolderResult where
  | noDir
  | noFiles
  | done (summary : BatchSummary) (ok : Bool)
deriving DecidableEq

/-- The candidate filter of `convert_folder` (lines 157-160): non-empty
extension, and either in the allow-list or not in the deny-list. -/
def is_audio_candidate (filename : String) : Bool :=
  let file_ext := lowerStr (splitextStr filename).2
  file_ext ≠ "" ∧ (file_ext ∈ COMMON_AUDIO_FORMATS ∨ file_ext ∉ NON_AUDIO_EXTS)

/-- One iteration of the `convert_folder` loop (lines 174-192), acting on
the accumulator (success_count, skip_count, fail_count). -/
def folder_step (env : Env) (folder_path output_format : String) (quality : Option Nat)
    (fmt : String) (acc : Nat × Nat × Nat) (filename : String) : Nat × Nat × Nat :=
  if endswith (lowerStr filename) output_format then
    (acc.1, acc.2.1 + 1, acc.2.2)
  else
    let input_file := joinPath folder_path filename
    let output_file := joinPath folder_path ((splitextStr filename).1 ++ output_format)
    if (convert_file env input_file (some output_file) quality (some fmt)).ok then
      (acc.1 + 1, acc.2.1, acc.2.2)
    else
      (acc.1, acc.2.1, acc.2.2 + 1)

/-- `convert_folder` from src/convert.py (lines 144-206). -/
def convert_folder (env : Env) (folder_path : String) (quality : Option Nat)
    (fmt : String) : FolderResult :=
  if env.isDir folder_path = false then .noDir
  else
    let output_format := "." ++ lowerStr fmt
    let all_files := env.listdir folder_path
    let audio_files := all_files.filter is_audio_candidate
    let total_files := audio_files.length
    if total_files = 0 then .noFiles
    else
      let counts := audio_files.foldl (folder_step env folder_path output_format quality fmt)
        (0, 0, 0)
      let success_count := counts.1
      let skip_count := counts.2.1
      let fail_count := counts.2.2
      let rate := if total_files - skip_count > 0 then
          (success_count * 100) / (total_files - skip_count)
        else 0
      .done ⟨total_files, success_count, skip_count, fail_count, rate⟩
        (decide (success_count > 0))

/-- The parsed argument record produced by the argparse front end. -/
structure Args where
  file : Option String
  directory : Option String
  list_formats : Bool
  output : Option String
  format2 : String
  quality : Nat

/-- `main` from src/convert.py (lines 225-306), returning the process
exit code.  `noArgs` models `len(sys.argv) == 1`.  The ffmpeg presence
probe is the `run ["ffmpeg", "-version"]` invocation; a `none` result
models the FileNotFoundError branch.  The input dispatch uses Python
truthiness (`if not args.file and not args.directory:` at line 287,
`if args.output and ...` at 293, `if args.file:` / `elif args.directory:`
at 292/303), so empty-string arguments count as absent.  The final
fallback is unreachable (line 287 guarantees one branch is taken; in
Python an undefined `success` would raise and exit non-zero). -/
def mainFn (env : Env) (noArgs : Bool) (args : Args) : Nat :=
  if noArgs then 0
  else if env.run ["ffmpeg", "-version"] = none then 1
  else if args.list_formats then 0
  else if ¬ pyTruthy args.file ∧ ¬ pyTruthy args.directory then 1
  else if pyTruthy args.file then
    let output :=
      if pyTruthy args.output ∧ (splitextStr (args.output.getD "")).2 = "" then
        some (args.output.getD "" ++ "." ++ args.format2)
      else args.output
    if (convert_file env (args.file.getD "") output (some args.quality)
        (some args.format2)).ok then 0 else 1
  else if pyTruthy args.directory then
    match convert_folder env (args.directory.getD "") (some args.quality)
        args.format2 with
    | .done _ true => 0
    | _ => 1
  else 1

/-! ## Helper lemmas -/

theorem dict_get_not_mem {m : List (String × List String)} {k : String} {d : List String}
    (h : k ∉ m.map Prod.fst) : dict_get m k d = d := by
  induction m with
  | nil => rfl
  | cons p rest ih =>
    obtain ⟨k2, v⟩ := p
    simp only [List.map_cons, List.mem_cons] at h
    push_neg at h
    simp only [dict_get, if_neg h.1]
    exact ih h.2

theorem dict_get_cases (m : List (String × List String)) (k : String) (d : List String) :
    dict_get m k d = d ∨ (k, dict_get m k d) ∈ m := by
  induction m with
  | nil => left; rfl
  | cons p rest ih =>
    obtain ⟨k2, v⟩ := p
    by_cases h : k = k2
    · right; subst h; simp [dict_get]
    · rcases ih with h2 | h2
      · left; simpa [dict_get, h] using h2
      · right; simp only [dict_get, if_neg h]; exact List.mem_cons_of_mem _ h2

theorem get_output_codec_default {s : String}
    (h : lowerStr s ∉ format_codec_map.map Prod.fst) :
    get_output_codec s = ["-c:a", "copy"] :=
  dict_get_not_mem h

theorem qa_not_mem_get_output_codec {s : String}
    (h1 : lowerStr s ≠ ".mp3") (h2 : lowerStr s ≠ ".ogg") :
    "-q:a" ∉ get_output_codec s := by
  rcases dict_get_cases format_codec_map (lowerStr s) ["-c:a", "copy"] with hc | hc
  · unfold get_output_codec
    rw [hc]; decide
  · unfold get_output_codec
    simp only [format_codec_map, List.mem_cons, List.not_mem_nil, or_false,
      Prod.mk.injEq] at hc
    rcases hc with ⟨e1, e2⟩ | ⟨e1, e2⟩ | ⟨e1, e2⟩ | ⟨e1, e2⟩ | ⟨e1, e2⟩ | ⟨e1, e2⟩ |
      ⟨e1, e2⟩ | ⟨e1, e2⟩ | ⟨e1, e2⟩
    · exact absurd e1 h1
    · exact absurd e1 h2
    all_goals (unfold format_codec_map; rw [e2]; decide)

theorem substQuality_of_not_mem (cs : List String) (q : Option Nat)
    (h : "-q:a" ∉ cs) : substQuality cs q = cs := by
  cases q with
  | none => rfl
  | some q => simp [substQuality, h]

theorem lowerStr_eq_empty_iff (s : String) : lowerStr s = "" ↔ s = "" := by
  cases s with
  | mk d =>
    constructor
    · intro h
      simp only [lowerStr] at h
      have : d.map charLower = [] := by
        have := congrArg String.data h
        simpa using this
      simp [List.map_eq_nil_iff] at this
      simp [this]
    · intro h
      rw [h]; rfl

theorem pyTruthy_eq_true {s : String} (h : s ≠ "") : pyTruthy (some s) = true := by
  simp [pyTruthy, h]

/-- A non-empty format override always wins the resolution, whatever the
output path. -/
theorem resolve_output_format_truthy (output_file : Option String) {f : String}
    (h : f ≠ "") :
    resolve_output_format output_file (some f) = some ("." ++ lowerStr f) := by
  simp [resolve_output_format, pyTruthy_eq_true h]

/-- Fields of `convert_file` once it reaches the spawn stage: the
assembled command and the resolved output path do not depend on the
result of the spawn. -/
theorem convert_file_spawn (env : Env) (input : String) (out : Option String)
    (q : Option Nat) (f : Option String) (ofmt : String)
    (hfile : env.isFile input = true)
    (hres : resolve_output_format out f = some ofmt) :
    (convert_file env input out q f).cmd =
      some (["ffmpeg", "-i", input] ++ substQuality (get_output_codec ofmt) q ++
        [out.getD ((splitextStr input).1 ++ ofmt)]) ∧
    (convert_file env input out q f).outputPath =
      some (out.getD ((splitextStr input).1 ++ ofmt)) := by
  unfold convert_file
  rw [hfile, hres]
  simp only [Bool.true_eq_false, if_false]
  cases henv : env.run (["ffmpeg", "-i", input] ++
      substQuality (get_output_codec ofmt) q ++
      [out.getD ((splitextStr input).1 ++ ofmt)]) with
  | none => simp
  | some r =>
    by_cases hrc : r.returncode ≠ 0 <;> simp [hrc]

/-- The candidate set of one batch run: the directory listing filtered by
the audio heuristic (line 153-160 of src/convert.py). -/
def folder_candidates (env : Env) (folder_path : String) : List String :=
  (env.listdir folder_path).filter is_audio_candidate

/-- The counters (success_count, skip_count, fail_count) produced by the
`convert_folder` loop over the candidate set. -/
def folder_counts (env : Env) (folder_path : String) (q : Option Nat) (fmt : String) :
    Nat × Nat × Nat :=
  (folder_candidates env folder_path).foldl
    (folder_step env folder_path ("." ++ lowerStr fmt) q fmt) (0, 0, 0)

theorem folder_step_skip (env : Env) (folder ofmt : String) (q : Option Nat)
    (fmt : String) (acc : Nat × Nat × Nat) (f : String) :
    (folder_step env folder ofmt q fmt acc f).2.1 =
      acc.2.1 + (if endswith (lowerStr f) ofmt then 1 else 0) := by
  unfold folder_step
  by_cases h : endswith (lowerStr f) ofmt
  · simp [h]
  · simp only [h, Bool.false_eq_true, if_false, if_neg]
    split <;> simp

theorem folder_step_conv_fail (env : Env) (folder ofmt : String) (q : Option Nat)
    (fmt : String) (acc : Nat × Nat × Nat) (f : String) :
    (folder_step env folder ofmt q fmt acc f).1 + (folder_step env folder ofmt q fmt acc f).2.2 =
      acc.1 + acc.2.2 + (if endswith (lowerStr f) ofmt then 0 else 1) := by
  unfold folder_step
  by_cases h : endswith (lowerStr f) ofmt
  · simp [h]
  · simp only [h, Bool.false_eq_true, if_false, if_neg]
    split <;> simp <;> omega

theorem folder_loop_skip (env : Env) (folder ofmt : String) (q : Option Nat)
    (fmt : String) (files : List String) (init : Nat × Nat × Nat) :
    (files.foldl (folder_step env folder ofmt q fmt) init).2.1 =
      init.2.1 + files.countP (fun f => endswith (lowerStr f) ofmt) := by
  induction files generalizing init with
  | nil => simp
  | cons a rest ih =>
    rw [List.foldl_cons, ih, folder_step_skip, List.countP_cons]
    by_cases h : endswith (lowerStr a) ofmt <;> (simp [h]; try omega)

theorem folder_loop_conv_fail (env : Env) (folder ofmt : String) (q : Option Nat)
    (fmt : String) (files : List String) (init : Nat × Nat × Nat) :
    (files.foldl (folder_step env folder ofmt q fmt) init).1 +
      (files.foldl (folder_step env folder ofmt q fmt) init).2.2 =
      init.1 + init.2.2 + files.countP (fun f => !endswith (lowerStr f) ofmt) := by
  induction files generalizing init with
  | nil => simp
  | cons a rest ih =>
    rw [List.foldl_cons, ih, folder_step_conv_fail, List.countP_cons]
    by_cases h : endswith (lowerStr a) ofmt <;> (simp [h]; try omega)

/-- Inversion for a completed batch run: the summary fields are exactly
the candidate count, the loop counters and the guarded rate. -/
theorem convert_folder_done (env : Env) (folder : String) (q : Option Nat) (fmt : String)
    (s : BatchSummary) (b : Bool)
    (h : convert_folder env folder q fmt = .done s b) :
    s = ⟨(folder_candidates env folder).length,
         (folder_counts env folder q fmt).1,
         (folder_counts env folder q fmt).2.1,
         (folder_counts env folder q fmt).2.2,
         if (folder_candidates env folder).length - (folder_counts env folder q fmt).2.1 > 0
         then ((folder_counts env folder q fmt).1 * 100) /
              ((folder_candidates env folder).length - (folder_counts env folder q fmt).2.1)
         else 0⟩ ∧
    b = decide ((folder_counts env folder q fmt).1 > 0) := by
  simp only [convert_folder] at h
  split at h
  · exact absurd h (by simp)
  · split at h
    · exact absurd h (by simp)
    · rw [FolderResult.done.injEq] at h
      exact ⟨h.1.symm, h.2.symm⟩

/-! ## Concrete environments used in witnesses and counterexamples -/

/-- Environment in which everything exists and every external invocation
succeeds with exit code 0. -/
def okEnv : Env :=
  { isFile := fun _ => true, isDir := fun _ => true,
    listdir := fun _ => ["a.wav", "b.mp3", "c.txt"],
    run := fun _ => some ⟨0, []⟩ }

/-- Environment in which the external tool is absent: every spawn raises
(FileNotFoundError), modelled by `run` returning `none`. -/
def noToolEnv : Env :=
  { isFile := fun _ => true, isDir := fun _ => true,
    listdir := fun _ => [], run := fun _ => none }

/-- Environment with no files on disk. -/
def noFileEnv : Env :=
  { isFile := fun _ => false, isDir := fun _ => false,
    listdir := fun _ => [], run := fun _ => some ⟨0, []⟩ }

/-- A failing external invocation with a six-line error stream. -/
def errProc : ProcResult :=
  ⟨1, ["e1", "e2", "e3", "e4", "e5", "e6"]⟩

/-- Environment in which every external invocation fails with `errProc`. -/
def failToolEnv : Env :=
  { isFile := fun _ => true, isDir := fun _ => true,
    listdir := fun _ => [], run := fun _ => some errProc }

/-- Parsed arguments for an invocation whose primary action is
`--list-formats`. -/
def listFormatsArgs : Args :=
  { file := none, directory := none, list_formats := true,
    output := none, format2 := "ogg", quality := 5 }

/-! ## Claims -/

/-- C1, counterexample: with the external tool absent (`run` raises on the
probe), an invocation whose primary action is `--list-formats` exits with
code 1, not 0 — the presence probe at line 274 of src/convert.py runs
before the list-formats dispatch at line 282, so it gates the list-formats
action too, contradicting the claim that the probe gates only conversion
actions. -/
theorem C1_counterexample : mainFn noToolEnv false listFormatsArgs = 1 := by
  decide

/-- C1, amended: an invocation with no arguments (help display) exits 0
regardless of tool presence; a `--list-formats` invocation exits 0 when
the external-tool probe succeeds; but when the probe fails, every
invocation that supplies arguments — the list-formats action included —
exits 1, because the probe precedes the list-formats dispatch. -/
theorem C1_exit_codes :
    (∀ (env : Env) (args : Args), mainFn env true args = 0) ∧
    (∀ (env : Env) (args : Args), args.list_formats = true →
      env.run ["ffmpeg", "-version"] ≠ none → mainFn env false args = 0) ∧
    (∀ (env : Env) (args : Args), env.run ["ffmpeg", "-version"] = none →
      mainFn env false args = 1) := by
  refine ⟨fun env args => rfl, fun env args hl hp => ?_, fun env args hp => ?_⟩
  · simp [mainFn, hl, hp]
  · simp [mainFn, hp]

/-- C1, witness: list-formats exits 0 with the tool present, and the
amended probe-failure clause at a concrete input. -/
theorem C1_exit_codes_witness :
    mainFn okEnv false listFormatsArgs = 0 ∧
    mainFn noToolEnv false listFormatsArgs = 1 :=
  ⟨C1_exit_codes.2.1 okEnv listFormatsArgs rfl (by decide),
   C1_exit_codes.2.2 noToolEnv listFormatsArgs rfl⟩

/-- C2: when the input path does not reference an existing regular file,
`convert_file` fails with the NotFound classification and spawns no
external process. -/
theorem C2_missing_input (env : Env) (input : String) (out : Option String)
    (q : Option Nat) (f : Option String) (h : env.isFile input = false) :
    (convert_file env input out q f).ok = false ∧
    (convert_file env input out q f).spawned = [] ∧
    (convert_file env input out q f).err = some .notFound := by
  simp [convert_file, h]

/-- C2, witness at a concrete missing file. -/
theorem C2_missing_input_witness :
    (convert_file noFileEnv "missing.wav" none (some 5) (some "mp3")).ok = false ∧
    (convert_file noFileEnv "missing.wav" none (some 5) (some "mp3")).spawned = [] ∧
    (convert_file noFileEnv "missing.wav" none (some 5) (some "mp3")).err =
      some .notFound :=
  C2_missing_input noFileEnv "missing.wav" none (some 5) (some "mp3") rfl

/-- C6: the codec policy lookup is case-insensitive on the format key
(keys equal after lowering get equal specs), maps the nine known formats
to their argument sequences, and maps every other string to the fixed
stream-copy default without signalling an error. -/
theorem C6_codec_policy :
    (∀ s t : String, lowerStr s = lowerStr t →
      get_output_codec s = get_output_codec t) ∧
    (get_output_codec ".mp3" = ["-c:a", "libmp3lame", "-q:a", "4"] ∧
     get_output_codec ".ogg" = ["-c:a", "libvorbis", "-q:a", "5"] ∧
     get_output_codec ".opus" = ["-c:a", "libopus", "-b:a", "128k"] ∧
     get_output_codec ".m4a" = ["-c:a", "aac", "-b:a", "192k"] ∧
     get_output_codec ".flac" = ["-c:a", "flac"] ∧
     get_output_codec ".wav" = ["-c:a", "pcm_s16le"] ∧
     get_output_codec ".aac" = ["-c:a", "aac", "-b:a", "192k"] ∧
     get_output_codec ".wma" = ["-c:a", "wmav2", "-b:a", "192k"] ∧
     get_output_codec ".alac" = ["-c:a", "alac"]) ∧
    (∀ s : String, lowerStr s ∉ format_codec_map.map Prod.fst →
      get_output_codec s = ["-c:a", "copy"]) := by
  refine ⟨fun s t h => ?_, by decide, fun s h => get_output_codec_default h⟩
  unfold get_output_codec
  rw [h]

/-- C6, witness: case-insensitive hit and unknown-format default at
concrete keys. -/
theorem C6_codec_policy_witness :
    get_output_codec ".MP3" = get_output_codec ".mp3" ∧
    get_output_codec ".xyz" = ["-c:a", "copy"] :=
  ⟨C6_codec_policy.1 ".MP3" ".mp3" (by decide),
   C6_codec_policy.2.2 ".xyz" (by decide)⟩

/-- C4: target-format resolution precedence in `convert_file`, where
"supplied" is Python truthiness (absent or empty means not supplied) —
a supplied format override first; else the extension of a supplied
output path, where an extensionless output path is a validation Failure
classified "no output format specified" with no process spawned; else
the fixed default `.ogg`; and when no output path is supplied the output
is derived as the input path with its extension replaced by the
dot-prefixed target format. -/
theorem C4_format_resolution :
    (∀ (o : Option String) (f : String), f ≠ "" →
      resolve_output_format o (some f) = some ("." ++ lowerStr f)) ∧
    (∀ (f2 : Option String) (o : String), pyTruthy f2 = false → o ≠ "" →
      (splitextStr o).2 ≠ "" →
      resolve_output_format (some o) f2 = some (lowerStr (splitextStr o).2)) ∧
    (∀ (f2 o2 : Option String), pyTruthy f2 = false → pyTruthy o2 = false →
      resolve_output_format o2 f2 = some ".ogg") ∧
    (∀ (env : Env) (input o : String) (q : Option Nat) (f2 : Option String),
      env.isFile input = true → pyTruthy f2 = false → o ≠ "" →
      (splitextStr o).2 = "" →
      (convert_file env input (some o) q f2).ok = false ∧
      (convert_file env input (some o) q f2).err = some .noOutputFormat ∧
      (convert_file env input (some o) q f2).spawned = []) ∧
    (∀ (env : Env) (input : String) (q : Option Nat) (f : String),
      env.isFile input = true → f ≠ "" →
      (convert_file env input none q (some f)).outputPath =
        some ((splitextStr input).1 ++ ("." ++ lowerStr f))) := by
  refine ⟨fun o f hf => resolve_output_format_truthy o hf,
    fun f2 o hf2 ho hext => ?_, fun f2 o2 hf2 ho2 => ?_,
    fun env input o q f2 hfile hf2 ho hext => ?_,
    fun env input q f hfile hf => ?_⟩
  · simp only [resolve_output_format, hf2, Bool.false_eq_true, if_false,
      pyTruthy_eq_true ho, if_true, Option.getD_some]
    rw [if_neg (fun hc => hext ((lowerStr_eq_empty_iff _).mp hc))]
  · simp [resolve_output_format, hf2, ho2]
  · have hres : resolve_output_format (some o) f2 = none := by
      simp only [resolve_output_format, hf2, Bool.false_eq_true, if_false,
        pyTruthy_eq_true ho, if_true, Option.getD_some, hext]
      simp [show lowerStr "" = "" from rfl]
    simp [convert_file, hfile, hres]
  · exact (convert_file_spawn env input none q (some f) ("." ++ lowerStr f)
      hfile (resolve_output_format_truthy none hf)).2

/-- C4, witness: extension-driven resolution, the extensionless-output
failure, and the derived output path, at concrete inputs. -/
theorem C4_format_resolution_witness :
    resolve_output_format (some "out.flac") none = some ".flac" ∧
    (convert_file okEnv "a.wav" (some "out") (some 5) none).err =
      some .noOutputFormat ∧
    (convert_file okEnv "track.wav" none (some 5) (some "mp3")).outputPath =
      some "track.mp3" :=
  ⟨(C4_format_resolution.2.1 none "out.flac" rfl (by decide) (by decide)).trans
     (by decide),
   (C4_format_resolution.2.2.2.1 okEnv "a.wav" "out" (some 5) none rfl rfl
     (by decide) (by decide)).2.1,
   (C4_format_resolution.2.2.2.2 okEnv "track.wav" (some 5) "mp3" rfl
     (by decide)).trans (by decide)⟩

/-- C5: for every call that reaches the spawn stage (input exists and the
format resolution succeeded, however it was resolved), when the external
invocation exits with a non-zero status `convert_file` returns Failure
and the diagnostic shown is exactly the last at-most-five lines of the
captured error stream: a suffix of the stream of length at most five,
and strictly shorter than the stream whenever the stream has more than
five lines. -/
theorem C5_truncated_diagnostic (env : Env) (input : String) (out : Option String)
    (q : Option Nat) (f : Option String) (ofmt : String) (r : ProcResult)
    (hfile : env.isFile input = true)
    (hres : resolve_output_format out f = some ofmt)
    (hrun : ∀ c, env.run c = some r)
    (hrc : r.returncode ≠ 0) :
    (convert_file env input out q f).ok = false ∧
    (convert_file env input out q f).err =
      some (.toolFailed (lastN 5 r.stderrLines)) ∧
    (lastN 5 r.stderrLines).length ≤ 5 ∧
    lastN 5 r.stderrLines <:+ r.stderrLines ∧
    (5 < r.stderrLines.length →
      (lastN 5 r.stderrLines).length < r.stderrLines.length) := by
  refine ⟨?_, ?_, ?_, ?_, ?_⟩
  · simp [convert_file, hfile, hres, hrun, hrc]
  · simp [convert_file, hfile, hres, hrun, hrc]
  · simp only [lastN, List.length_drop]
    omega
  · exact ⟨r.stderrLines.take (r.stderrLines.length - 5),
      List.take_append_drop _ _⟩
  · intro h
    simp only [lastN, List.length_drop]
    omega

/-- C5, witness: with a six-line error stream, the diagnostic is the last
five lines only. -/
theorem C5_truncated_diagnostic_witness :
    (convert_file failToolEnv "a.wav" none (some 5) (some "mp3")).err =
      some (.toolFailed ["e2", "e3", "e4", "e5", "e6"]) :=
  (C5_truncated_diagnostic failToolEnv "a.wav" none (some 5) (some "mp3") ".mp3"
    errProc rfl (by decide) (fun _ => rfl) (by decide)).2.1.trans (by decide)

/-- C7: converting to ogg with quality 8 puts the literal "8" immediately
after the "-q:a" flag in the codec arguments, replacing the default "5",
and the assembled external command contains exactly that sequence. -/
theorem C7_quality_placeholder (env : Env) (input : String) (out : Option String)
    (hfile : env.isFile input = true) :
    substQuality (get_output_codec ".ogg") (some 8) =
      ["-c:a", "libvorbis", "-q:a", "8"] ∧
    (convert_file env input out (some 8) (some "ogg")).cmd =
      some (["ffmpeg", "-i", input] ++ ["-c:a", "libvorbis", "-q:a", "8"] ++
        [out.getD ((splitextStr input).1 ++ ".ogg")]) := by
  have hsub : substQuality (get_output_codec ".ogg") (some 8) =
      ["-c:a", "libvorbis", "-q:a", "8"] := by decide
  refine ⟨hsub, ?_⟩
  have hres : resolve_output_format out (some "ogg") = some ".ogg" := by
    rw [resolve_output_format_truthy out (show ("ogg" : String) ≠ "" by decide)]
    decide
  have h := (convert_file_spawn env input out (some 8) (some "ogg") ".ogg"
    hfile hres).1
  rw [h, hsub]

/-- C7, witness: the assembled command for `song.wav` to ogg at quality 8
contains "8" directly after "-q:a". -/
theorem C7_quality_placeholder_witness :
    (convert_file okEnv "song.wav" none (some 8) (some "ogg")).cmd =
      some ["ffmpeg", "-i", "song.wav", "-c:a", "libvorbis", "-q:a", "8",
        "song.ogg"] :=
  (C7_quality_placeholder okEnv "song.wav" none rfl).2.trans (by decide)

/-- C9: with both an explicit output path and an explicit (non-empty,
hence truthy) format override, `convert_file` keeps the output path
exactly as supplied while choosing codec arguments from the override,
and with that override present the format resolution never consults the
output path — so the file-name extension and the actual codec can
disagree. -/
theorem C9_override_beats_extension (env : Env) (input out f : String)
    (q : Option Nat) (hfile : env.isFile input = true) (hf : f ≠ "") :
    (convert_file env input (some out) q (some f)).outputPath = some out ∧
    (convert_file env input (some out) q (some f)).cmd =
      some (["ffmpeg", "-i", input] ++
        substQuality (get_output_codec ("." ++ lowerStr f)) q ++ [out]) ∧
    (∀ o o2 : Option String,
      resolve_output_format o (some f) = resolve_output_format o2 (some f)) := by
  have h := convert_file_spawn env input (some out) q (some f)
    ("." ++ lowerStr f) hfile (resolve_output_format_truthy (some out) hf)
  exact ⟨h.2, h.1, fun o o2 =>
    (resolve_output_format_truthy o hf).trans
      (resolve_output_format_truthy o2 hf).symm⟩

/-- C9, witness: output named `song.mp3` is kept while the codec
arguments select flac — the extension and codec disagree. -/
theorem C9_override_beats_extension_witness :
    (convert_file okEnv "song.wav" (some "song.mp3") (some 5) (some "flac")).outputPath =
      some "song.mp3" ∧
    (convert_file okEnv "song.wav" (some "song.mp3") (some 5) (some "flac")).cmd =
      some ["ffmpeg", "-i", "song.wav", "-c:a", "flac", "song.mp3"] :=
  ⟨(C9_override_beats_extension okEnv "song.wav" "song.mp3" "flac" (some 5) rfl
     (by decide)).1,
   (C9_override_beats_extension okEnv "song.wav" "song.mp3" "flac" (some 5) rfl
     (by decide)).2.1.trans (by decide)⟩

/-- C10: for every call whose resolved target format (however resolved)
has a codec spec without "-q:a", the whole `convert_file` outcome — in
particular the assembled command — is identical for any two quality
values; the seven non-quality known formats and every unknown format
(mapped to stream copy) have no "-q:a"; a spec containing "-q:a" forces
the lowercased format to be ".mp3" or ".ogg"; and for those two the
substituted codec arguments do depend on the quality. -/
theorem C10_quality_independence :
    (∀ (env : Env) (input : String) (out : Option String) (f : Option String)
      (ofmt : String) (q1 q2 : Nat),
      resolve_output_format out f = some ofmt →
      "-q:a" ∉ get_output_codec ofmt →
      convert_file env input out (some q1) f =
        convert_file env input out (some q2) f) ∧
    (∀ f, f ∈ [".opus", ".m4a", ".flac", ".wav", ".aac", ".wma", ".alac"] →
      "-q:a" ∉ get_output_codec f) ∧
    (∀ s : String, lowerStr s ∉ format_codec_map.map Prod.fst →
      "-q:a" ∉ get_output_codec s) ∧
    (∀ s : String, "-q:a" ∈ get_output_codec s →
      lowerStr s = ".mp3" ∨ lowerStr s = ".ogg") ∧
    substQuality (get_output_codec ".mp3") (some 0) ≠
      substQuality (get_output_codec ".mp3") (some 1) ∧
    substQuality (get_output_codec ".ogg") (some 0) ≠
      substQuality (get_output_codec ".ogg") (some 1) := by
  refine ⟨fun env input out f ofmt q1 q2 hres h => ?_, by decide, fun s h => ?_,
    fun s h => ?_, by decide, by decide⟩
  · simp only [convert_file, hres]
    rw [substQuality_of_not_mem (get_output_codec ofmt) (some q1) h,
      substQuality_of_not_mem (get_output_codec ofmt) (some q2) h]
  · refine qa_not_mem_get_output_codec (fun e => h ?_) (fun e => h ?_)
    · rw [e]; decide
    · rw [e]; decide
  · by_contra hcon
    push_neg at hcon
    exact qa_not_mem_get_output_codec hcon.1 hcon.2 h
/-- C10, witness: flac conversions at qualities 0 and 10 are literally the
same call. -/
theorem C10_quality_independence_witness :
    convert_file okEnv "a.wav" none (some 0) (some "flac") =
      convert_file okEnv "a.wav" none (some 10) (some "flac") :=
  C10_quality_independence.1 okEnv "a.wav" none (some "flac") ".flac" 0 10
    (by decide) (by decide)

/-- C8: the batch success-rate computation is guarded — whenever every
candidate was skipped (skipped equals total), the reported rate is 0 and
the division branch is not taken. -/
theorem C8_rate_guard (env : Env) (folder : String) (q : Option Nat) (fmt : String)
    (s : BatchSummary) (b : Bool)
    (h : convert_folder env folder q fmt = .done s b)
    (hall : s.skipped = s.total) : s.rate = 0 := by
  rcases convert_folder_done env folder q fmt s b h with ⟨hs, -⟩
  subst hs
  have h2 : (folder_counts env folder q fmt).2.1 =
      (folder_candidates env folder).length := hall
  show (if (folder_candidates env folder).length -
        (folder_counts env folder q fmt).2.1 > 0 then
      (folder_counts env folder q fmt).1 * 100 /
        ((folder_candidates env folder).length -
          (folder_counts env folder q fmt).2.1)
    else 0) = 0
  rw [h2, Nat.sub_self]
  simp

/-- Environment whose directory listing holds only files already in wav
format, so a batch run to wav skips every candidate. -/
def skipEnv : Env :=
  { isFile := fun _ => true, isDir := fun _ => true,
    listdir := fun _ => ["a.wav", "b.wav"],
    run := fun _ => some ⟨0, []⟩ }

/-- C8, witness: a batch run in which both candidates are already in the
target format — total = skipped = 2 and the reported rate is 0. -/
theorem C8_rate_guard_witness : (⟨2, 0, 2, 0, 0⟩ : BatchSummary).rate = 0 :=
  C8_rate_guard skipEnv "music" (some 5) "wav" ⟨2, 0, 2, 0, 0⟩ false
    (by decide) rfl

/-- C3: in every batch run, the skipped counter is exactly the number of
candidates whose lowercased name ends in the dot-prefixed target format,
and the converted and failed counters together account exactly for the
remaining candidates — so a candidate already in the target format is
counted Skipped and neither converted nor failed.  Concretely, for a
directory listing {a.wav, b.mp3, c.txt} with target mp3 and a succeeding
tool, the candidate set is {a.wav, b.mp3} and the summary is total = 2,
converted = 1, skipped = 1, failed = 0. -/
theorem C3_skip_accounting :
    (∀ (env : Env) (folder : String) (q : Option Nat) (fmt : String)
      (s : BatchSummary) (b : Bool),
      convert_folder env folder q fmt = .done s b →
      s.total = (folder_candidates env folder).length ∧
      s.skipped = (folder_candidates env folder).countP
        (fun f => endswith (lowerStr f) ("." ++ lowerStr fmt)) ∧
      s.converted + s.failed = (folder_candidates env folder).countP
        (fun f => !endswith (lowerStr f) ("." ++ lowerStr fmt))) ∧
    folder_candidates okEnv "music" = ["a.wav", "b.mp3"] ∧
    convert_folder okEnv "music" (some 5) "mp3" = .done ⟨2, 1, 1, 0, 100⟩ true := by
  refine ⟨?_, by decide, by decide⟩
  intro env folder q fmt s b h
  rcases convert_folder_done env folder q fmt s b h with ⟨hs, -⟩
  subst hs
  refine ⟨rfl, ?_, ?_⟩
  · show (folder_counts env folder q fmt).2.1 = _
    unfold folder_counts
    rw [folder_loop_skip]
    simp
  · show (folder_counts env folder q fmt).1 + (folder_counts env folder q fmt).2.2 = _
    unfold folder_counts
    rw [folder_loop_conv_fail]
    simp

/-- C3, witness: the accounting instantiated on the concrete scenario
run. -/
theorem C3_skip_accounting_witness :
    (⟨2, 1, 1, 0, 100⟩ : BatchSummary).skipped =
      (folder_candidates okEnv "music").countP
        (fun f => endswith (lowerStr f) ("." ++ lowerStr "mp3")) :=
  (C3_skip_accounting.1 okEnv "music" (some 5) "mp3" ⟨2, 1, 1, 0, 100⟩ true
    (by decide)).2.1
